import Mathlib

/-!
Verification of the `pi_svg` SvgRenderer facade (src/src/draw_svg.rs and
src/src/camera.rs).

Shallow embedding of the `SvgRenderer` state machine of `src/src/draw_svg.rs`
and of the camera (fit) transform of `src/src/camera.rs`.  Rust `f32` values
are modelled by exact rationals (ℚ); all concrete inputs used below keep the
modelled computations exact.  Rust `i32` values are modelled by ℤ.  A Rust
panic (`Option::unwrap` on `None`) is modelled by an `Option`-valued result
whose `none` case marks the panic.  External collaborators (usvg parsing,
Pathfinder scene building, the GPU device) are modelled at the boundary the
spec describes: `SvgTree::from_data` becomes an `Except String SvgTreeM`
argument, and GPU commands become an explicit effect trace.
-/

/-- A `pathfinder_geometry::rect::RectF`, as origin plus size (all `f32`,
modelled by ℚ).  Only the fields the fitting code reads are kept. -/
structure RectQ where
  ox : ℚ
  oy : ℚ
  w : ℚ
  h : ℚ
deriving DecidableEq, Repr

/-- Model of `Transform2F` restricted to the subset the code constructs:
`Transform2F::from_scale(s).translate(o)`, i.e. a uniform scale followed by a
translation, applied as `p' = p * scale + t`. -/
structure Transform2Q where
  scale : ℚ
  t : ℚ × ℚ
deriving DecidableEq, Repr

/-- Rust `Transform2F::from_scale(s)`. -/
def Transform2Q.fromScale (s : ℚ) : Transform2Q :=
  ⟨s, (0, 0)⟩

/-- Rust `Transform2F::translate(self, v)`: post-composition with the translation
by `v` (Pathfinder defines it as `from_translation(v) * self`). -/
def Transform2Q.translate (m : Transform2Q) (v : ℚ × ℚ) : Transform2Q :=
  ⟨m.scale, (m.t.1 + v.1, m.t.2 + v.2)⟩

/-- Application of the transform to a point: `p' = p * scale + t`. -/
def Transform2Q.apply (m : Transform2Q) (p : ℚ × ℚ) : ℚ × ℚ :=
  (m.scale * p.1 + m.t.1, m.scale * p.2 + m.t.2)

/-- Rust `f32::min` on the rational model (both operands finite, so IEEE min
is the ordinary minimum). -/
def f32min (a b : ℚ) : ℚ :=
  if a ≤ b then a else b

/-- Rust `i32::min`. -/
def i32min (a b : ℤ) : ℤ :=
  if a ≤ b then a else b

/-- The divisor used by the fitting code (`f32::min(view_box.size().x(),
view_box.size().y())` in src/src/camera.rs line 7 and
src/src/draw_svg.rs line 131). -/
def fitDivisor (view_box : RectQ) : ℚ :=
  f32min view_box.w view_box.h

/-- Function `Camera::new` from src/src/camera.rs lines 5–15 (the identical inline
computation appears in src/src/draw_svg.rs lines 130–134):
`s = 1.0 / f32::min(vb.w, vb.h)`;
`scale = (i32::min(vp.x, vp.y) as f32) * s`;
`origin = vp.to_f32() * 0.5 - vb.size() * (scale * 0.5)`;
result `Transform2F::from_scale(scale).translate(origin)`. -/
def Camera.new (view_box : RectQ) (viewport_size : ℤ × ℤ) : Transform2Q :=
  let s : ℚ := 1 / fitDivisor view_box
  let scale : ℚ := (i32min viewport_size.1 viewport_size.2 : ℤ) * s
  let origin : ℚ × ℚ :=
    ((viewport_size.1 : ℚ) * (1/2) - view_box.w * (scale * (1/2)),
     (viewport_size.2 : ℚ) * (1/2) - view_box.h * (scale * (1/2)))
  (Transform2Q.fromScale scale).translate origin

/-- The aspect-correct "meet" scale written in the spec (§4.1):
`s = min(viewportSize.x / viewBox.size.x, viewportSize.y / viewBox.size.y)`.
Stated from the words of the spec, for comparison against `Camera.new`. -/
def specMeetScale (view_box : RectQ) (viewport_size : ℤ × ℤ) : ℚ :=
  f32min ((viewport_size.1 : ℚ) / view_box.w) ((viewport_size.2 : ℚ) / view_box.h)

/-- The "meet" translation written in the spec (§4.1):
`t = viewportSize * 0.5 - viewBox.size * (s * 0.5)`. -/
def specMeetTranslation (view_box : RectQ) (viewport_size : ℤ × ℤ) : ℚ × ℚ :=
  let s := specMeetScale view_box viewport_size
  ((viewport_size.1 : ℚ) * (1/2) - view_box.w * (s * (1/2)),
   (viewport_size.2 : ℚ) * (1/2) - view_box.h * (s * (1/2)))



/-- Rust `as i32` cast on a (finite, in-range) `f32`: truncation toward
zero.  All SVG sizes fed through it below are in range. -/
def f32_as_i32 (q : ℚ) : ℤ :=
  if 0 ≤ q then ⌊q⌋ else ⌈q⌉

/-- Error type `SvgError` from src/src/draw_svg.rs lines 24–34. -/
inductive SvgError where
  | Load (msg : String)
  | NoLoad
  | NoSize
deriving DecidableEq, Repr

/-- Model of `ColorF` (pathfinder_color), over ℚ. -/
structure ColorFQ where
  r : ℚ
  g : ℚ
  b : ℚ
  a : ℚ
deriving DecidableEq, Repr

/-- The data the external usvg parser and Pathfinder scene builder hand to
`load_svg` on a successful parse: `svg_node().size` and the view box of the
Pathfinder scene built by `SVGScene::from_tree_and_scene` (read back in
src/src/draw_svg.rs line 125 as `scene.view_box()`). -/
structure SvgTreeM where
  size_w : ℚ
  size_h : ℚ
  scene_view_box : RectQ
deriving DecidableEq, Repr

/-- Model of a `SceneProxy` as created in src/src/draw_svg.rs lines 125–140:
the view box of the scene was reset to the viewport-sized rectangle (line 126)
and the proxy was built once with the camera transform (lines 136–139). -/
structure SceneProxyM where
  scene_view_box : RectQ
  built_transform : Transform2Q
deriving DecidableEq, Repr

/-- The `RendererOptions` fields the facade sets (DestFramebuffer::Default is
the only destination the code uses, so its viewport and window size are
inlined). -/
structure RendererOptionsM where
  background_color : Option ColorFQ
  show_debug_ui : Bool
  dest_viewport_offset : ℤ × ℤ
  dest_viewport_size : ℤ × ℤ
  dest_window_size : ℤ × ℤ
deriving DecidableEq, Repr

/-- Model of the external Pathfinder `Renderer` as configured by the
facade: the framebuffer it was created against and its current options. -/
structure RendererM where
  fbo_id : ℕ
  options : RendererOptionsM
deriving DecidableEq, Repr

/-- The state of `SvgRenderer` (src/src/draw_svg.rs lines 37–57).  The
platform constants `gl_version`/`gl_level` are fixed by the build target and
are not part of any observable behavior modelled here. -/
structure SvgRenderer where
  scene_proxy : Option SceneProxyM
  renderer : Option RendererM
  clear_color : ColorFQ
  target_size : ℤ × ℤ
  viewport_offset : ℤ × ℤ
  viewport_size : Option (ℤ × ℤ)
deriving DecidableEq, Repr

/-- Commands issued to the external renderer, recorded as a trace. -/
inductive Effect where
  | buildScene (transform : Transform2Q)
  | beginCommands
  | renderScene
  | endCommands
deriving DecidableEq, Repr

/-- Method `SvgRenderer::set_clear_color` (src/src/draw_svg.rs lines 89–91). -/
def SvgRenderer.set_clear_color (s : SvgRenderer) (r g b a : ℚ) : SvgRenderer :=
  { s with clear_color := ⟨r, g, b, a⟩ }

/-- Method `SvgRenderer::set_viewport` (src/src/draw_svg.rs lines 206–211): the
offset is always stored; the size only when provided. -/
def SvgRenderer.set_viewport (s : SvgRenderer) (x y : ℤ)
    (size : Option (ℤ × ℤ)) : SvgRenderer :=
  let s := { s with viewport_offset := (x, y) }
  match size with
  | some wh => { s with viewport_size := some wh }
  | none => s

/-- Method `SvgRenderer::set_target` (src/src/draw_svg.rs lines 180–203): stores the
target size and recreates the external renderer against `fbo_id`, with a
viewport defaulting to size (1,1) while no viewport size is known. -/
def SvgRenderer.set_target (s : SvgRenderer) (fbo_id : ℕ)
    (target_w target_h : ℤ) : SvgRenderer :=
  let s := { s with target_size := (target_w, target_h) }
  let viewport_size : ℤ × ℤ :=
    match s.viewport_size with
    | some v => v
    | none => (1, 1)
  { s with
    renderer := some
      { fbo_id := fbo_id
        options :=
          { background_color := some s.clear_color
            show_debug_ui := false
            dest_viewport_offset := s.viewport_offset
            dest_viewport_size := viewport_size
            dest_window_size := s.target_size } } }

/-- Constructor `SvgRenderer::new` (src/src/draw_svg.rs lines 60–86): builds the initial
state and immediately applies `set_target` and `set_viewport`. -/
def SvgRenderer.new (fbo_id : ℕ) (target_w target_h : ℤ)
    (vp_offset : ℤ × ℤ) (vp_size : Option (ℤ × ℤ)) : SvgRenderer :=
  let s : SvgRenderer :=
    { scene_proxy := none
      renderer := none
      clear_color := ⟨1, 0, 0, 1⟩
      viewport_offset := (0, 0)
      viewport_size := none
      target_size := (1, 1) }
  let s := s.set_target fbo_id target_w target_h
  s.set_viewport vp_offset.1 vp_offset.2 vp_size

/-- Method `SvgRenderer::load_svg` (src/src/draw_svg.rs lines 94–143).  The external
call `SvgTree::from_data(data, &options)` is the `parsed` argument.  Line 95
clears `scene_proxy` before the parse result is inspected.  Lines 115–119 set
the viewport size from the natural size of the SVG when none is stored, then read
it back (`unwrap`, provably `Some` at that point).  Lines 125–134 read the
view box of the scene, reset it to the viewport rectangle, and compute the
camera transform by the same formula as `Camera::new`; lines 136–140 build the
scene proxy once with that transform. -/
def loadViewportSize (s : SvgRenderer) (svg : SvgTreeM) : ℤ × ℤ :=
  match s.viewport_size with
  | none => (f32_as_i32 svg.size_w, f32_as_i32 svg.size_h)
  | some v => v

/-- The camera transform `load_svg` computes on lines 130–134 of
src/src/draw_svg.rs, the same formula as `Camera::new` applied to the
view box of the scene and the resolved viewport size. -/
def loadCamera (s : SvgRenderer) (svg : SvgTreeM) : Transform2Q :=
  Camera.new svg.scene_view_box (loadViewportSize s svg)

def SvgRenderer.load_svg (s : SvgRenderer) (parsed : Except String SvgTreeM) :
    SvgRenderer × Except SvgError Unit × List Effect :=
  let s0 := { s with scene_proxy := none }
  match parsed with
  | .error e => (s0, .error (SvgError.Load e), [])
  | .ok svg =>
    let vps : ℤ × ℤ := loadViewportSize s0 svg
    let s1 := { s0 with viewport_size := some vps }
    let camera := loadCamera s0 svg
    let proxy : SceneProxyM := ⟨⟨0, 0, (vps.1 : ℚ), (vps.2 : ℚ)⟩, camera⟩
    ({ s1 with scene_proxy := some proxy }, .ok (), [Effect.buildScene camera])

/-- Method `SvgRenderer::draw_once` (src/src/draw_svg.rs lines 145–175).  A `none`
result models a panic: the `target_size.unwrap()` on line 151 when the
renderer is missing and no size argument was given, or the
`self.viewport_size.unwrap()` on line 162 (and the two `unwrap`s on lines
155–156, kept as explicit matches).  Otherwise it updates the options of the
renderer and issues begin/render/end to the external device. -/
def SvgRenderer.draw_once (s : SvgRenderer) (target_size : Option (ℤ × ℤ)) :
    Option (SvgRenderer × Except SvgError Unit × List Effect) :=
  match s.scene_proxy with
  | none => some (s, .error SvgError.NoLoad, [])
  | some _ =>
    let s1? : Option SvgRenderer :=
      match s.renderer, target_size with
      | none, none => none
      | none, some (w, h) => some (s.set_target 0 w h)
      | some _, _ => some s
    match s1? with
    | none => none
    | some s1 =>
      match s1.scene_proxy, s1.renderer, s1.viewport_size with
      | some _, some r, some vps =>
        let r1 :=
          { r with
            options :=
              { show_debug_ui := false
                background_color := some s1.clear_color
                dest_viewport_offset := s1.viewport_offset
                dest_viewport_size := vps
                dest_window_size := s1.target_size } }
        some ({ s1 with renderer := some r1 }, .ok (),
          [Effect.beginCommands, Effect.renderScene, Effect.endCommands])
      | _, _, _ => none



/-- The invariant the claims about panic freedom rest on: the external
renderer exists, and a loaded scene comes with a resolved viewport size. -/
def RendererInv (s : SvgRenderer) : Prop :=
  s.renderer.isSome = true ∧ (s.scene_proxy.isSome = true → s.viewport_size.isSome = true)

/-- Modelled from the spec: the error type of the keyed SceneCache (spec §4.2,
§7).  The keyed `load_svg(key, bytes)` / `draw_once(key)` renderer revision
called from src/examples/polylines.rs (run_loop) is not present under src/,
so its cache is modelled from the words of the spec. -/
inductive SceneError where
  | InvalidKey
  | ParseError (msg : String)
deriving DecidableEq, Repr

/-- Modelled from the spec: a SceneEntry of the keyed SceneCache (spec §3):
view box and natural size computed from parser output. -/
structure SceneEntryM where
  view_box : RectQ
  natural_w : ℚ
  natural_h : ℚ
deriving DecidableEq, Repr

/-- Modelled from the spec: the storage of the keyed SceneCache, keyed by the
caller-assigned integer handle (key 0 reserved/invalid). -/
abbrev SceneCache := List (ℕ × SceneEntryM)

/-- The keys currently present in a cache. -/
def cacheKeys (c : SceneCache) : List ℕ :=
  c.map Prod.fst

/-- The SceneEntry built from parser output on a successful load. -/
def entryOfTree (t : SvgTreeM) : SceneEntryM :=
  ⟨t.scene_view_box, t.size_w, t.size_h⟩

/-- Modelled from the spec: `SceneCache.load(key, bytes)` (spec §4.2), the
implementation behind the keyed `load_svg` of examples/polylines.rs, which is
not under src/.  Fails with `InvalidKey` on key 0; returns `Ok(())` without
reparsing when the key is already present; otherwise parses (the `parsed`
argument stands for the external parser applied to the bytes) and inserts a
new entry on success. -/
def cacheLoad (c : SceneCache) (key : ℕ) (parsed : Except String SvgTreeM) :
    SceneCache × Except SceneError Unit :=
  if key = 0 then (c, .error SceneError.InvalidKey)
  else if key ∈ cacheKeys c then (c, .ok ())
  else
    match parsed with
    | .error e => (c, .error (SceneError.ParseError e))
    | .ok t => ((key, entryOfTree t) :: c, .ok ())

theorem draw_once_of_no_scene (s : SvgRenderer) (ts : Option (ℤ × ℤ))
    (h : s.scene_proxy = none) :
    s.draw_once ts = some (s, .error SvgError.NoLoad, []) := by
  simp [SvgRenderer.draw_once, h]

theorem new_fields (fbo : ℕ) (tw th : ℤ) (vo : ℤ × ℤ) (vs : Option (ℤ × ℤ)) :
    (SvgRenderer.new fbo tw th vo vs).scene_proxy = none
    ∧ (SvgRenderer.new fbo tw th vo vs).renderer.isSome = true
    ∧ (SvgRenderer.new fbo tw th vo vs).viewport_size = vs := by
  cases vs <;>
    simp [SvgRenderer.new, SvgRenderer.set_target, SvgRenderer.set_viewport]

/-- C1: the fit transform is claimed to use the aspect-correct "meet"
formula, with scale 0.5 and translation (0,25) for view box size (200,100)
and viewport (100,100).  The code (`Camera::new`, and the identical inline
computation in `load_svg`) instead computes scale
`min(vp.x,vp.y) * (1/min(vb.w,vb.h)) = 1` and translation `(-50,0)` there,
differing from the values of the spec formula. -/
theorem C1_fit_formula_code_eval :
    (Camera.new ⟨0, 0, 200, 100⟩ (100, 100)).scale = 1
    ∧ (Camera.new ⟨0, 0, 200, 100⟩ (100, 100)).t = (-50, 0)
    ∧ specMeetScale ⟨0, 0, 200, 100⟩ (100, 100) = 1/2
    ∧ specMeetTranslation ⟨0, 0, 200, 100⟩ (100, 100) = (0, 25)
    ∧ (Camera.new ⟨0, 0, 200, 100⟩ (100, 100)).scale
        ≠ specMeetScale ⟨0, 0, 200, 100⟩ (100, 100)
    ∧ ((SvgRenderer.new 0 100 100 (0, 0) (some (100, 100))).load_svg
          (.ok ⟨200, 100, ⟨0, 0, 200, 100⟩⟩)).1.scene_proxy
        = some ⟨⟨0, 0, 100, 100⟩, Camera.new ⟨0, 0, 200, 100⟩ (100, 100)⟩ := by
  refine ⟨?_, ?_, ?_, ?_, ?_, ?_⟩
  · norm_num [Camera.new, fitDivisor, f32min, i32min, Transform2Q.fromScale,
      Transform2Q.translate]
  · norm_num [Camera.new, fitDivisor, f32min, i32min, Transform2Q.fromScale,
      Transform2Q.translate, Prod.ext_iff]
  · norm_num [specMeetScale, f32min]
  · norm_num [specMeetScale, specMeetTranslation, f32min, Prod.ext_iff]
  · norm_num [Camera.new, specMeetScale, fitDivisor, f32min, i32min,
      Transform2Q.fromScale, Transform2Q.translate]
  · rfl

/-- C2: the "meet" containment property is claimed for the computed fit
transform.  At view box {origin (0,0), size (200,100)} and viewport
(100,100) the transform the code computes has positive scale but maps the view box to a
rectangle of width 200 > 100 = viewport width, so the containment part
fails. -/
theorem C2_meet_property_code_eval :
    0 < (Camera.new ⟨0, 0, 200, 100⟩ (100, 100)).scale
    ∧ ((Camera.new ⟨0, 0, 200, 100⟩ (100, 100)).apply (200, 100)).1
        - ((Camera.new ⟨0, 0, 200, 100⟩ (100, 100)).apply (0, 0)).1 = 200
    ∧ ¬ ((200 : ℚ) ≤ 100) := by
  refine ⟨?_, ?_, by norm_num⟩
  · norm_num [Camera.new, fitDivisor, f32min, i32min, Transform2Q.fromScale,
      Transform2Q.translate]
  · norm_num [Camera.new, fitDivisor, f32min, i32min, Transform2Q.fromScale,
      Transform2Q.translate, Transform2Q.apply]

/-- C3: on any state with no loaded scene (`scene_proxy = None`) — in
particular the state `SvgRenderer::new` leaves before any `load_svg` —
`draw_once` returns `Err(NoLoad)`, leaves the state unchanged, and issues no
rendering commands. -/
theorem C3_draw_before_load (s : SvgRenderer) (ts : Option (ℤ × ℤ))
    (fbo : ℕ) (tw th : ℤ) (vo : ℤ × ℤ) (vs : Option (ℤ × ℤ))
    (h : s.scene_proxy = none) :
    s.draw_once ts = some (s, .error SvgError.NoLoad, [])
    ∧ (SvgRenderer.new fbo tw th vo vs).scene_proxy = none :=
  ⟨draw_once_of_no_scene s ts h, (new_fields fbo tw th vo vs).1⟩

theorem C3_witness :
    (SvgRenderer.new 0 100 100 (0, 0) none).draw_once none
      = some (SvgRenderer.new 0 100 100 (0, 0) none, .error SvgError.NoLoad, [])
    ∧ (SvgRenderer.new 0 100 100 (0, 0) none).scene_proxy = none :=
  C3_draw_before_load (SvgRenderer.new 0 100 100 (0, 0) none) none
    0 100 100 (0, 0) none rfl

/-- C4 counterexample: the claim that a failed `load_svg` leaves the
observable renderer state unchanged is false.  Starting from a state with
a successfully loaded scene (where `draw_once` succeeds), a failing
`load_svg` clears the loaded scene (`scene_proxy` drops from `Some` to
`None`) and a subsequent `draw_once` now fails with `NoLoad`. -/
theorem C4_failed_load_not_stateless :
    (((SvgRenderer.new 0 100 100 (0, 0) (some (100, 100))).load_svg
        (.ok ⟨200, 100, ⟨0, 0, 200, 100⟩⟩)).1.scene_proxy.isSome = true)
    ∧ ((((SvgRenderer.new 0 100 100 (0, 0) (some (100, 100))).load_svg
        (.ok ⟨200, 100, ⟨0, 0, 200, 100⟩⟩)).1.draw_once none).map
          (fun r => r.2.1) = some (.ok ()))
    ∧ ((((SvgRenderer.new 0 100 100 (0, 0) (some (100, 100))).load_svg
        (.ok ⟨200, 100, ⟨0, 0, 200, 100⟩⟩)).1.load_svg
          (.error "parse failed")).2.1 = .error (SvgError.Load "parse failed"))
    ∧ ((((SvgRenderer.new 0 100 100 (0, 0) (some (100, 100))).load_svg
        (.ok ⟨200, 100, ⟨0, 0, 200, 100⟩⟩)).1.load_svg
          (.error "parse failed")).1.scene_proxy = none)
    ∧ (((((SvgRenderer.new 0 100 100 (0, 0) (some (100, 100))).load_svg
        (.ok ⟨200, 100, ⟨0, 0, 200, 100⟩⟩)).1.load_svg
          (.error "parse failed")).1.draw_once none).map
            (fun r => r.2.1) = some (.error SvgError.NoLoad)) :=
  ⟨rfl, rfl, rfl, rfl, rfl⟩

/-- C4 amended: a failing `load_svg` is not state-preserving: it clears
`scene_proxy` (unloading any previously loaded scene) before the parse
result is inspected, leaves every other field unchanged, issues no renderer
commands, and a subsequent `draw_once` on the resulting state fails with
`NoLoad`. -/
theorem C4_amended_failed_load_clears_scene (s : SvgRenderer) (e : String)
    (ts : Option (ℤ × ℤ)) :
    s.load_svg (.error e)
      = ({ s with scene_proxy := none }, .error (SvgError.Load e), [])
    ∧ ({ s with scene_proxy := none } : SvgRenderer).draw_once ts
      = some ({ s with scene_proxy := none }, .error SvgError.NoLoad, []) :=
  ⟨rfl, draw_once_of_no_scene _ ts rfl⟩

/-- C5: loading the same key twice leaves the keyed scene cache in the same
state as loading it once; when the first load succeeded, the second call is
a no-op whose result does not depend on the parse at all (no re-parse, no
replacement); and loading preserves key uniqueness. -/
theorem C5_cache_load_idempotent (c : SceneCache) (k : ℕ)
    (p p' : Except String SvgTreeM) (hnd : (cacheKeys c).Nodup) :
    (cacheLoad (cacheLoad c k p).1 k p).1 = (cacheLoad c k p).1
    ∧ ((cacheLoad c k p).2 = .ok () →
        cacheLoad (cacheLoad c k p).1 k p' = ((cacheLoad c k p).1, .ok ()))
    ∧ (cacheKeys (cacheLoad c k p).1).Nodup := by
  by_cases hk : k = 0
  · simp [cacheLoad, hk, hnd]
  · by_cases hmem : k ∈ cacheKeys c
    · simp [cacheLoad, hk, hmem, hnd]
    · cases p with
      | error e => simp [cacheLoad, hk, hmem, hnd]
      | ok t =>
        have hc1 : cacheLoad c k (.ok t) = ((k, entryOfTree t) :: c, .ok ()) := by
          simp [cacheLoad, hk, hmem]
        have hmem1 : k ∈ cacheKeys ((k, entryOfTree t) :: c) := by
          simp [cacheKeys]
        refine ⟨?_, ?_, ?_⟩
        · rw [hc1]
          simp [cacheLoad, hk, hmem1]
        · intro _
          rw [hc1]
          simp [cacheLoad, hk, hmem1]
        · rw [hc1]
          simp only [cacheKeys, List.map_cons, List.nodup_cons]
          exact ⟨by simpa [cacheKeys] using hmem, by simpa [cacheKeys] using hnd⟩

theorem C5_witness :
    (cacheLoad (cacheLoad [] 1 (.ok ⟨200, 100, ⟨0, 0, 200, 100⟩⟩)).1 1
        (.ok ⟨200, 100, ⟨0, 0, 200, 100⟩⟩)).1
      = (cacheLoad [] 1 (.ok ⟨200, 100, ⟨0, 0, 200, 100⟩⟩)).1
    ∧ ((cacheLoad [] 1 (.ok ⟨200, 100, ⟨0, 0, 200, 100⟩⟩)).2 = .ok () →
        cacheLoad (cacheLoad [] 1 (.ok ⟨200, 100, ⟨0, 0, 200, 100⟩⟩)).1 1
            (.error "other bytes")
          = ((cacheLoad [] 1 (.ok ⟨200, 100, ⟨0, 0, 200, 100⟩⟩)).1, .ok ()))
    ∧ (cacheKeys (cacheLoad [] 1 (.ok ⟨200, 100, ⟨0, 0, 200, 100⟩⟩)).1).Nodup :=
  C5_cache_load_idempotent [] 1 (.ok ⟨200, 100, ⟨0, 0, 200, 100⟩⟩)
    (.error "other bytes") (by simp [cacheKeys])

/-- C6: `set_viewport(x, y, Some((w,h)))` stores the offset `(x,y)` and the
size exactly `(w,h)`, so reading the stored viewport size back yields
`(w,h)`; `set_viewport(x, y, None)` stores the offset and leaves the stored
viewport size unchanged. -/
theorem C6_set_viewport_roundtrip (s : SvgRenderer) (x y w h : ℤ) :
    (s.set_viewport x y (some (w, h))).viewport_offset = (x, y)
    ∧ (s.set_viewport x y (some (w, h))).viewport_size = some (w, h)
    ∧ (s.set_viewport x y none).viewport_offset = (x, y)
    ∧ (s.set_viewport x y none).viewport_size = s.viewport_size := by
  simp [SvgRenderer.set_viewport]

/-- C7: a successful `load_svg` sets the viewport size to the natural
size (width and height truncated to integers) when none was stored, and
leaves an already-stored viewport size unchanged. -/
theorem C7_natural_size_default (s : SvgRenderer) (tree : SvgTreeM)
    (v : ℤ × ℤ) :
    (s.viewport_size = none →
      (s.load_svg (.ok tree)).1.viewport_size
        = some (f32_as_i32 tree.size_w, f32_as_i32 tree.size_h))
    ∧ (s.viewport_size = some v →
      (s.load_svg (.ok tree)).1.viewport_size = some v) := by
  constructor
  · intro h
    simp [SvgRenderer.load_svg, loadViewportSize, h]
  · intro h
    simp [SvgRenderer.load_svg, loadViewportSize, h]

theorem C7_witness :
    ((SvgRenderer.new 0 100 100 (0, 0) none).load_svg
        (.ok ⟨200, 100, ⟨0, 0, 200, 100⟩⟩)).1.viewport_size = some (200, 100)
    ∧ ((SvgRenderer.new 0 100 100 (0, 0) (some (50, 60))).load_svg
        (.ok ⟨200, 100, ⟨0, 0, 200, 100⟩⟩)).1.viewport_size = some (50, 60) := by
  constructor
  · have h := (C7_natural_size_default (SvgRenderer.new 0 100 100 (0, 0) none)
      ⟨200, 100, ⟨0, 0, 200, 100⟩⟩ (0, 0)).1 rfl
    rw [h]
    norm_num [f32_as_i32]
  · exact (C7_natural_size_default (SvgRenderer.new 0 100 100 (0, 0)
      (some (50, 60))) ⟨200, 100, ⟨0, 0, 200, 100⟩⟩ (50, 60)).2 rfl

/-- C8 counterexample: the code performs no zero-size view-box rejection.
An input whose Pathfinder scene view box has size (0,0) reaches the fit
computation: `load_svg` returns `Ok(())` (no `DegenerateViewBox`-style error
exists in the source at all), and the divisor `min(vb.w, vb.h)` used for the
scale there is 0. -/
theorem C8_zero_viewbox_reaches_fit :
    ((SvgRenderer.new 0 100 100 (0, 0) (some (100, 100))).load_svg
        (.ok ⟨10, 10, ⟨0, 0, 0, 0⟩⟩)).2.1 = .ok ()
    ∧ fitDivisor (⟨0, 0, 0, 0⟩ : RectQ) = 0 := by
  exact ⟨rfl, by norm_num [fitDivisor, f32min]⟩

/-- C8 amended: the repository code never rejects a zero-size view box (no
`DegenerateViewBox` error exists); the divisor at the fit computation is
nonzero only because the external usvg parser guarantees positive sizes and
view boxes: for every parse result whose scene view box has positive
dimensions, `load_svg` reaches the fit computation with a nonzero divisor. -/
theorem C8_amended_divisor_nonzero (s : SvgRenderer) (tree : SvgTreeM)
    (hw : 0 < tree.scene_view_box.w) (hh : 0 < tree.scene_view_box.h) :
    fitDivisor tree.scene_view_box ≠ 0
    ∧ (s.load_svg (.ok tree)).2.1 = .ok () := by
  constructor
  · unfold fitDivisor f32min
    split
    · exact ne_of_gt hw
    · exact ne_of_gt hh
  · rfl

theorem C8_witness :
    fitDivisor ((⟨200, 100, ⟨0, 0, 200, 100⟩⟩ : SvgTreeM)).scene_view_box ≠ 0
    ∧ ((SvgRenderer.new 0 100 100 (0, 0) (some (100, 100))).load_svg
        (.ok ⟨200, 100, ⟨0, 0, 200, 100⟩⟩)).2.1 = .ok () :=
  C8_amended_divisor_nonzero (SvgRenderer.new 0 100 100 (0, 0) (some (100, 100)))
    ⟨200, 100, ⟨0, 0, 200, 100⟩⟩ (by norm_num) (by norm_num)

/-- C9 counterexample: a `draw_once` call on a loaded renderer does not
rebuild the scene: its command trace is exactly begin/render/end, with no
build — the single build with the fit transform happened inside `load_svg`. -/
theorem C9_draw_does_not_rebuild :
    ((((SvgRenderer.new 0 100 100 (0, 0) (some (100, 100))).load_svg
        (.ok ⟨200, 100, ⟨0, 0, 200, 100⟩⟩)).1.draw_once none).map
          (fun r => r.2.2))
      = some [Effect.beginCommands, Effect.renderScene, Effect.endCommands]
    ∧ ((((SvgRenderer.new 0 100 100 (0, 0) (some (100, 100))).load_svg
        (.ok ⟨200, 100, ⟨0, 0, 200, 100⟩⟩)).1.draw_once none).map
          (fun r => r.2.1)) = some (.ok ()) :=
  ⟨rfl, rfl⟩

/-- C9 amended: the scene is flattened with the fit transform once per
successful `load_svg` (whose trace is exactly one build with the computed
camera), not once per `draw_once`: a ready `draw_once` submits the
previously built scene with a begin/render/end trace containing no build. -/
theorem C9_amended_build_once_at_load (s s' : SvgRenderer) (tree : SvgTreeM)
    (ts : Option (ℤ × ℤ)) (pr : SceneProxyM) (r : RendererM) (v : ℤ × ℤ)
    (hp : s'.scene_proxy = some pr) (hr : s'.renderer = some r)
    (hv : s'.viewport_size = some v) :
    (s.load_svg (.ok tree)).2.2 = [Effect.buildScene (loadCamera s tree)]
    ∧ (s'.draw_once ts).map (fun x => x.2.2)
        = some [Effect.beginCommands, Effect.renderScene, Effect.endCommands] := by
  constructor
  · rfl
  · simp [SvgRenderer.draw_once, hp, hr, hv]

theorem C9_witness :
    (((SvgRenderer.new 0 100 100 (0, 0) (some (100, 100))).load_svg
        (.ok ⟨200, 100, ⟨0, 0, 200, 100⟩⟩)).2.2
      = [Effect.buildScene (loadCamera
          (SvgRenderer.new 0 100 100 (0, 0) (some (100, 100)))
          ⟨200, 100, ⟨0, 0, 200, 100⟩⟩)])
    ∧ ((((SvgRenderer.new 0 100 100 (0, 0) (some (100, 100))).load_svg
        (.ok ⟨200, 100, ⟨0, 0, 200, 100⟩⟩)).1.draw_once none).map
          (fun x => x.2.2))
      = some [Effect.beginCommands, Effect.renderScene, Effect.endCommands] :=
  C9_amended_build_once_at_load
    (SvgRenderer.new 0 100 100 (0, 0) (some (100, 100)))
    ((SvgRenderer.new 0 100 100 (0, 0) (some (100, 100))).load_svg
      (.ok ⟨200, 100, ⟨0, 0, 200, 100⟩⟩)).1
    ⟨200, 100, ⟨0, 0, 200, 100⟩⟩ none
    ⟨⟨0, 0, 100, 100⟩, Camera.new ⟨0, 0, 200, 100⟩ (100, 100)⟩
    ⟨0, { background_color := some ⟨1, 0, 0, 1⟩, show_debug_ui := false,
          dest_viewport_offset := (0, 0), dest_viewport_size := (1, 1),
          dest_window_size := (100, 100) }⟩
    (100, 100) rfl rfl rfl

/-- C10: `SvgRenderer::new` establishes `renderer = Some` (together with the
invariant that a loaded scene has a resolved viewport size); every operation
preserves this; and on any state satisfying it, `draw_once` never panics
(never hits the `target_size.unwrap()` fallback or the
`viewport_size.unwrap()`) for any `target_size` argument, and its result
state still satisfies the invariant. -/
theorem C10_draw_never_panics (fbo : ℕ) (tw th : ℤ) (vo : ℤ × ℤ)
    (vs : Option (ℤ × ℤ)) (s : SvgRenderer) (r g b a : ℚ) (x y : ℤ)
    (sz : Option (ℤ × ℤ)) (fbo2 : ℕ) (tw2 th2 : ℤ)
    (p : Except String SvgTreeM) (ts : Option (ℤ × ℤ))
    (hs : RendererInv s) :
    RendererInv (SvgRenderer.new fbo tw th vo vs)
    ∧ RendererInv (s.set_clear_color r g b a)
    ∧ RendererInv (s.set_viewport x y sz)
    ∧ RendererInv (s.set_target fbo2 tw2 th2)
    ∧ RendererInv (s.load_svg p).1
    ∧ s.draw_once ts ≠ none
    ∧ (∀ s1 res eff, s.draw_once ts = some (s1, res, eff) → RendererInv s1) := by
  obtain ⟨hr, himp⟩ := hs
  refine ⟨?_, ?_, ?_, ?_, ?_, ?_, ?_⟩
  · refine ⟨(new_fields fbo tw th vo vs).2.1, ?_⟩
    intro hcon
    rw [(new_fields fbo tw th vo vs).1] at hcon
    simp at hcon
  · exact ⟨hr, himp⟩
  · cases sz with
    | none => exact ⟨hr, himp⟩
    | some wh =>
      refine ⟨hr, fun h => ?_⟩
      simp [SvgRenderer.set_viewport]
  · exact ⟨by simp [SvgRenderer.set_target], fun h => himp h⟩
  · cases p with
    | error e => exact ⟨hr, by simp [SvgRenderer.load_svg]⟩
    | ok tree => exact ⟨hr, by simp [SvgRenderer.load_svg]⟩
  · cases h2 : s.scene_proxy with
    | none => simp [SvgRenderer.draw_once, h2]
    | some pr =>
      obtain ⟨r0, h1⟩ := Option.isSome_iff_exists.mp hr
      have hvp : s.viewport_size.isSome = true := himp (by rw [h2]; rfl)
      obtain ⟨v0, h3⟩ := Option.isSome_iff_exists.mp hvp
      simp [SvgRenderer.draw_once, h1, h2, h3]
  · intro s1 res eff heq
    cases h2 : s.scene_proxy with
    | none =>
      rw [draw_once_of_no_scene s ts h2] at heq
      obtain ⟨rfl, -, -⟩ := Prod.mk.injEq .. ▸ (Option.some.injEq .. ▸ heq :)
      exact ⟨hr, himp⟩
    | some pr =>
      obtain ⟨r0, h1⟩ := Option.isSome_iff_exists.mp hr
      have hvp : s.viewport_size.isSome = true := himp (by rw [h2]; rfl)
      obtain ⟨v0, h3⟩ := Option.isSome_iff_exists.mp hvp
      simp only [SvgRenderer.draw_once, h1, h2, h3] at heq
      obtain ⟨hs1, -, -⟩ := Prod.mk.injEq .. ▸ (Option.some.injEq .. ▸ heq :)
      subst hs1
      exact ⟨by simp, fun h => by simp⟩

theorem C10_witness :
    RendererInv (SvgRenderer.new 0 100 100 (0, 0) none)
    ∧ RendererInv ((SvgRenderer.new 0 100 100 (0, 0) none).set_clear_color 0 0 0 1)
    ∧ RendererInv ((SvgRenderer.new 0 100 100 (0, 0) none).set_viewport 0 0 none)
    ∧ RendererInv ((SvgRenderer.new 0 100 100 (0, 0) none).set_target 0 50 50)
    ∧ RendererInv ((SvgRenderer.new 0 100 100 (0, 0) none).load_svg
        (.ok ⟨200, 100, ⟨0, 0, 200, 100⟩⟩)).1
    ∧ (SvgRenderer.new 0 100 100 (0, 0) none).draw_once none ≠ none
    ∧ (∀ s1 res eff,
        (SvgRenderer.new 0 100 100 (0, 0) none).draw_once none
          = some (s1, res, eff) → RendererInv s1) :=
  C10_draw_never_panics 0 100 100 (0, 0) none
    (SvgRenderer.new 0 100 100 (0, 0) none) 0 0 0 1 0 0 none 0 50 50
    (.ok ⟨200, 100, ⟨0, 0, 200, 100⟩⟩) none
    ⟨rfl, by intro hcon; simp [SvgRenderer.new, SvgRenderer.set_target,
      SvgRenderer.set_viewport] at hcon⟩
